import Mathlib

set_option linter.unusedVariables false

/-!
Verification development for the Reddit sentiment-aggregation core
(`src/reddit_analysis/comment_analysis.py`, class `SubredditAnalyzer`).

Floats are modelled as rationals (`ℚ`), Python exceptions as an explicit
error type propagated through `Except`, and the MongoDB collection, the
comment preprocessor and the VADER sentiment scorer as abstract
collaborator functions bundled in an `Analyzer` structure.  The loops of
the Python methods are translated to structural recursions over lists, in
the same order as the source statements.
-/

namespace RedditAnalysis

/-- Polarity score produced by the sentiment scorer for one comment:
`{pos, neg, neu, compound}` (spec data model: pos, neg, neu ∈ [0,1],
compound ∈ [-1,1]; the code consumes the fields without checking ranges,
so no range constraint is baked into the type). -/
structure PolarityScore where
  pos : ℚ
  neg : ℚ
  neu : ℚ
  compound : ℚ
deriving DecidableEq

/-- The classification enumeration of the spec (in the code it is the
`classification_to_print_out` label of `analyze_submission`). -/
inductive Classification where
  | positive
  | negative
  | ignored
deriving DecidableEq

/-- Python exception kinds raised (or catchable) in `comment_analysis.py`:
`ValueError` from parameter validation, `KeyError` from a missing dict
key, `TypeError` from subscripting `None` or item-assigning a float,
`NameError` from an unbound local, and pymongo's `CursorNotFound`. -/
inductive PyErr where
  | valueError
  | keyError
  | typeError
  | nameError
  | cursorNotFound
deriving DecidableEq

/-- The `{'positive': ..., 'negative': ...}` result dictionary returned by
`analyze_submission` and `analyze_subreddit`. -/
structure AggregateResult where
  positive : ℚ
  negative : ℚ
deriving DecidableEq

/-- Outcome of `self.__reddit_collection.find_one({'submission': id})` as
used in the display branch of `analyze_submission`: the cursor can be
lost (pymongo `CursorNotFound`, caught by the code), the query can return
`None` (no document), or it returns a document whose `subreddit_name`
field may be present or absent. -/
inductive FindOneResult where
  | cursorLost
  | noneFound
  | record (subredditName : Option String)
deriving DecidableEq

/-- The collaborators held by a `SubredditAnalyzer` instance.
`getPreprocessedComments` is modelled from the spec:
`RedditPreprocessor.get_preprocessed_comments` lives in
`comment_preprocessing.py`, which is not part of the sources; per spec
§4.2 step 2 and §6 it returns the normalized comment texts of a
submission, filtered by the sorting type and capped by the max-comments
argument, all opaque to the aggregation core.  `polarityScores` is the
black-box VADER scorer, `findOne` the mongo `find_one` lookup used by the
display branch, and `distinctSubmissions` the
`find({...}).distinct('submission')` query of `analyze_subreddit`
(second argument: the optional `sorting_type` filter). -/
structure Analyzer where
  getPreprocessedComments : String → Int → Option String → List String
  polarityScores : String → PolarityScore
  findOne : String → FindOneResult
  distinctSubmissions : String → Option String → List String

/-- `self.__valid_sorting_types = {'new', 'top', 'hot', None}`. -/
def validSortingTypes : List (Option String) :=
  [some "new", some "top", some "hot", none]

/-- Python truthiness test `if opt and opt < 0` for an optional integer
argument: `None` is falsy, the integer `0` is falsy, any other integer is
truthy and is then compared with `0`. -/
def pyIntTruthyNeg : Option Int → Bool
  | none => false
  | some m => decide (m ≠ 0) && decide (m < 0)

/-- Python truthiness test `if sorting_type:` on an optional string:
`None` and the empty string are falsy. -/
def pyTruthyStr : Option String → Bool
  | none => false
  | some s => decide (s ≠ "")

/-- `__check_analysis_paramters_are_valid_raise_exception`: raises
`ValueError` when the sorting type is not in the valid set, or when a
supplied max-comments / max-submissions option is truthy and negative. -/
def checkAnalysisParamtersAreValidRaiseException (sortingTypeOption : Option String)
    (maxCommentsOption maxSubmissionsOption : Option Int) : Except PyErr Unit :=
  if sortingTypeOption ∉ validSortingTypes then Except.error PyErr.valueError
  else if pyIntTruthyNeg maxCommentsOption then Except.error PyErr.valueError
  else if pyIntTruthyNeg maxSubmissionsOption then Except.error PyErr.valueError
  else Except.ok ()

/-- The classification decided by the `if/elif/else` of
`analyze_submission` for one scored comment (the value of
`classification_to_print_out`). -/
def classifyComment (s : PolarityScore) : Classification :=
  if s.compound ≥ 5 / 100 ∨ (s.neg = 0 ∧ s.pos > 0) then Classification.positive
  else if s.compound ≤ -(5 / 100) ∨ (s.pos = 0 ∧ s.neg > 0) then Classification.negative
  else Classification.ignored

/-- One iteration of the bucket accumulation of `analyze_submission`:
append `compound` to `positive_comment_results`, or `abs(compound)` to
`negative_comment_results`, or neither. -/
def bucketStep (acc : List ℚ × List ℚ) (s : PolarityScore) : List ℚ × List ℚ :=
  if s.compound ≥ 5 / 100 ∨ (s.neg = 0 ∧ s.pos > 0) then (acc.1 ++ [s.compound], acc.2)
  else if s.compound ≤ -(5 / 100) ∨ (s.pos = 0 ∧ s.neg > 0) then (acc.1, acc.2 ++ [|s.compound|])
  else acc

/-- One full iteration of the comment loop of `analyze_submission`:
score the comment, accumulate it into the buckets, and, when
`display_all_comment_results` is set, perform the
`find_one(...)['subreddit_name']` lookup whose `CursorNotFound` failure
is caught (default label) but whose `None` result or missing key raises
an uncaught `TypeError` / `KeyError`. -/
def submissionStep (A : Analyzer) (submissionId : String) (display : Bool)
    (acc : List ℚ × List ℚ) (comment : String) : Except PyErr (List ℚ × List ℚ) :=
  let acc2 := bucketStep acc (A.polarityScores comment)
  if display then
    match A.findOne submissionId with
    | FindOneResult.cursorLost => Except.ok acc2
    | FindOneResult.noneFound => Except.error PyErr.typeError
    | FindOneResult.record none => Except.error PyErr.keyError
    | FindOneResult.record (some _) => Except.ok acc2
  else Except.ok acc2

/-- The `for comment in preprocessed_submission_comments:` loop of
`analyze_submission`, threading the two bucket lists and propagating any
uncaught exception. -/
def runComments (A : Analyzer) (submissionId : String) (display : Bool) :
    List String → List ℚ × List ℚ → Except PyErr (List ℚ × List ℚ)
  | [], acc => Except.ok acc
  | comment :: rest, acc =>
    match submissionStep A submissionId display acc comment with
    | Except.error e => Except.error e
    | Except.ok acc2 => runComments A submissionId display rest acc2

/-- `analyze_submission` up to (and including) the comment loop:
parameter validation, retrieval of the preprocessed comments, and the
bucket accumulation. -/
def submissionBuckets (A : Analyzer) (submissionId : String) (sortingType : Option String)
    (display : Bool) (maxComments : Int) : Except PyErr (List ℚ × List ℚ) :=
  match checkAnalysisParamtersAreValidRaiseException sortingType (some maxComments) none with
  | Except.error e => Except.error e
  | Except.ok _ =>
      runComments A submissionId display
        (A.getPreprocessedComments submissionId maxComments sortingType) ([], [])

/-- `analyze_submission`, instrumented: the second component records
whether the division branch (`total_sum_of_result_scores ≠ 0`) was
executed. -/
def analyzeSubmissionFull (A : Analyzer) (submissionId : String) (sortingType : Option String)
    (display : Bool) (maxComments : Int) : Except PyErr (AggregateResult × Bool) :=
  match submissionBuckets A submissionId sortingType display maxComments with
  | Except.error e => Except.error e
  | Except.ok pn =>
      let total := (pn.1 ++ pn.2).sum
      if total = 0 then Except.ok (⟨0, 0⟩, false)
      else Except.ok (⟨pn.1.sum / total, pn.2.sum / total⟩, true)

/-- `analyze_submission(submission_id, sorting_type,
display_all_comment_results, max_number_of_comments_to_analyze)`:
returns the `{'positive': ..., 'negative': ...}` dictionary or the
propagated exception. -/
def analyzeSubmission (A : Analyzer) (submissionId : String) (sortingType : Option String)
    (display : Bool) (maxComments : Int) : Except PyErr AggregateResult :=
  match analyzeSubmissionFull A submissionId sortingType display maxComments with
  | Except.error e => Except.error e
  | Except.ok rb => Except.ok rb.1

/-- The `subreddit_submission_ids` query of `analyze_subreddit`: with a
truthy sorting type, `find({'subreddit_name': n, 'sorting_type': s})`,
otherwise `find({'subreddit_name': n})`, both followed by
`.distinct('submission')`. -/
def subredditSubmissionIds (A : Analyzer) (subredditName : String)
    (sortingType : Option String) : List String :=
  if pyTruthyStr sortingType then A.distinctSubmissions subredditName sortingType
  else A.distinctSubmissions subredditName none

/-- The truncation `subreddit_submission_ids[: max_number_of_submissions_to_analyze]`
guarded by `len(ids) > max and max != 0`. -/
def truncateSubmissionIds (ids : List String) (maxSubmissions : Int) : List String :=
  if (ids.length : Int) > maxSubmissions ∧ maxSubmissions ≠ 0 then
    ids.take maxSubmissions.toNat
  else ids

/-- The `for submission_id in subreddit_submission_ids:` loop of
`analyze_subreddit`: analyze each submission and add its `positive` /
`negative` fields into the running dictionary, propagating any exception
raised by `analyze_submission`. -/
def subredditAccum (A : Analyzer) (sortingType : Option String) (displayComments : Bool)
    (maxComments : Int) : List String → AggregateResult → Except PyErr AggregateResult
  | [], acc => Except.ok acc
  | submissionId :: rest, acc =>
    match analyzeSubmission A submissionId sortingType displayComments maxComments with
    | Except.error e => Except.error e
    | Except.ok r =>
        subredditAccum A sortingType displayComments maxComments rest
          ⟨acc.positive + r.positive, acc.negative + r.negative⟩

/-- `analyze_subreddit`, instrumented: besides the result dictionary the
value records the number of submissions that were analyzed (the length
of the truncated id list; `0` on the early empty-subreddit return) and
whether the renormalizing division branch
(`total_sum_of_all_submission_scores != 0`) was executed. -/
def analyzeSubredditFull (A : Analyzer) (subredditName : String) (sortingType : Option String)
    (displayComments displaySubmissions : Bool) (maxComments maxSubmissions : Int) :
    Except PyErr (AggregateResult × Nat × Bool) :=
  match checkAnalysisParamtersAreValidRaiseException sortingType
      (some maxComments) (some maxSubmissions) with
  | Except.error e => Except.error e
  | Except.ok _ =>
      let ids := subredditSubmissionIds A subredditName sortingType
      if ids.length = 0 then Except.ok (⟨0, 0⟩, 0, false)
      else
        let ids2 := truncateSubmissionIds ids maxSubmissions
        match subredditAccum A sortingType displayComments maxComments ids2 ⟨0, 0⟩ with
        | Except.error e => Except.error e
        | Except.ok acc =>
            let total := acc.positive + acc.negative
            if total ≠ 0 then
              Except.ok (⟨acc.positive / total, acc.negative / total⟩, ids2.length, true)
            else Except.ok (acc, ids2.length, false)

/-- `analyze_subreddit(subreddit_name, sorting_type,
display_all_comment_results, display_all_submission_results,
max_number_of_comments_to_analyze, max_number_of_submissions_to_analyze)`.
`display_all_submission_results` only prints and therefore does not
appear in the computation. -/
def analyzeSubreddit (A : Analyzer) (subredditName : String) (sortingType : Option String)
    (displayComments displaySubmissions : Bool) (maxComments maxSubmissions : Int) :
    Except PyErr AggregateResult :=
  match analyzeSubredditFull A subredditName sortingType displayComments displaySubmissions
      maxComments maxSubmissions with
  | Except.error e => Except.error e
  | Except.ok rcb => Except.ok rcb.1

/-- The loop of `get_most_positive_subreddit_analysis_results`.  The
running-maximum dictionary `most_positive_subreddit` starts as the empty
dict `{}` (modelled `none`); the comparison
`analysis_result['positive'] > most_positive_subreddit['positive']`
therefore raises `KeyError` whenever the accumulator is still empty. -/
def mostPositiveLoop (A : Analyzer) (sortingType : Option String) (maxComments maxSubmissions : Int) :
    List String → Option AggregateResult → Except PyErr (Option AggregateResult)
  | [], best => Except.ok best
  | sub :: rest, best =>
    match analyzeSubreddit A sub sortingType false false maxComments maxSubmissions with
    | Except.error e => Except.error e
    | Except.ok r =>
        match best with
        | none => Except.error PyErr.keyError
        | some b =>
            if r.positive > b.positive then
              mostPositiveLoop A sortingType maxComments maxSubmissions rest (some r)
            else mostPositiveLoop A sortingType maxComments maxSubmissions rest best

/-- The loop of `get_most_negative_subreddit_analysis_results`, comparing
the `negative` fields. -/
def mostNegativeLoop (A : Analyzer) (sortingType : Option String) (maxComments maxSubmissions : Int) :
    List String → Option AggregateResult → Except PyErr (Option AggregateResult)
  | [], best => Except.ok best
  | sub :: rest, best =>
    match analyzeSubreddit A sub sortingType false false maxComments maxSubmissions with
    | Except.error e => Except.error e
    | Except.ok r =>
        match best with
        | none => Except.error PyErr.keyError
        | some b =>
            if r.negative > b.negative then
              mostNegativeLoop A sortingType maxComments maxSubmissions rest (some r)
            else mostNegativeLoop A sortingType maxComments maxSubmissions rest best

/-- `get_most_positive_subreddit_analysis_results`.  After the loop the
code executes `most_positive_score['subreddit'] = subreddit`: if the loop
never assigned (empty input list) both locals are unbound (`NameError`);
if it had assigned, `most_positive_score` would be a float and the item
assignment would raise `TypeError`. -/
def getMostPositiveSubredditAnalysisResults (A : Analyzer) (listOfSubreddits : List String)
    (sortingType : Option String) (maxComments maxSubmissions : Int) :
    Except PyErr AggregateResult :=
  match mostPositiveLoop A sortingType maxComments maxSubmissions listOfSubreddits none with
  | Except.error e => Except.error e
  | Except.ok none => Except.error PyErr.nameError
  | Except.ok (some _) => Except.error PyErr.typeError

/-- `get_most_negative_subreddit_analysis_results`.  Its final statement
references `most_positive_score`, a name never bound in this method, so
the post-loop code raises `NameError` on every path that reaches it. -/
def getMostNegativeSubredditAnalysisResults (A : Analyzer) (listOfSubreddits : List String)
    (sortingType : Option String) (maxComments maxSubmissions : Int) :
    Except PyErr AggregateResult :=
  match mostNegativeLoop A sortingType maxComments maxSubmissions listOfSubreddits none with
  | Except.error e => Except.error e
  | Except.ok none => Except.error PyErr.nameError
  | Except.ok (some _) => Except.error PyErr.nameError

/-- The per-submission results of the subreddit loop, as a list (used to
state the unweighted-fold claim). -/
def submissionResults (A : Analyzer) (sortingType : Option String) (displayComments : Bool)
    (maxComments : Int) : List String → Except PyErr (List AggregateResult)
  | [] => Except.ok []
  | submissionId :: rest =>
    match analyzeSubmission A submissionId sortingType displayComments maxComments with
    | Except.error e => Except.error e
    | Except.ok r =>
        match submissionResults A sortingType displayComments maxComments rest with
        | Except.error e => Except.error e
        | Except.ok rs => Except.ok (r :: rs)

/-- The positive branch condition of the classifier, as in the claim:
`compound >= 0.05` or (`neg == 0` and `pos > 0`). -/
def positiveCondition (s : PolarityScore) : Prop :=
  s.compound ≥ 5 / 100 ∨ (s.neg = 0 ∧ s.pos > 0)

/-- The negative branch condition of the classifier, as in the claim:
`compound <= -0.05` or (`pos == 0` and `neg > 0`). -/
def negativeCondition (s : PolarityScore) : Prop :=
  s.compound ≤ -(5 / 100) ∨ (s.pos = 0 ∧ s.neg > 0)

instance (s : PolarityScore) : Decidable (positiveCondition s) := by
  unfold positiveCondition; infer_instance

instance (s : PolarityScore) : Decidable (negativeCondition s) := by
  unfold negativeCondition; infer_instance

/-- A clearly positive sample score (compound 0.8). -/
def scorePositive : PolarityScore := ⟨1 / 2, 0, 1 / 2, 4 / 5⟩

/-- A clearly negative sample score (compound -0.7). -/
def scoreNegative : PolarityScore := ⟨0, 1 / 2, 1 / 2, -(7 / 10)⟩

/-- A concrete collaborator assembly: subreddit `r` has the two
submissions `a` (one positive comment) and `b` (one negative comment);
`find_one` always yields a record carrying a subreddit name. -/
def sampleAnalyzer : Analyzer :=
  ⟨fun sid _ _ => if sid = "a" then ["good"] else if sid = "b" then ["bad"] else [],
   fun c => if c = "good" then scorePositive else scoreNegative,
   fun _ => FindOneResult.record (some "sub"),
   fun name _ => if name = "r" then ["a", "b"] else []⟩

/-- A collaborator assembly whose `find_one` yields a record without the
`subreddit_name` field (the situation anticipated by the code's own
comment in the display branch). -/
def missingFieldAnalyzer : Analyzer :=
  ⟨fun _ _ _ => ["good"],
   fun _ => scorePositive,
   fun _ => FindOneResult.record none,
   fun _ _ => ["a"]⟩

lemma pyIntTruthyNeg_none : pyIntTruthyNeg none = false := rfl

lemma pyIntTruthyNeg_some_iff (m : Int) : pyIntTruthyNeg (some m) = true ↔ m < 0 := by
  simp only [pyIntTruthyNeg, Bool.and_eq_true, decide_eq_true_eq]
  omega

lemma checkParams_ok_iff (st : Option String) (mcO msO : Option Int) :
    checkAnalysisParamtersAreValidRaiseException st mcO msO = Except.ok () ↔
      st ∈ validSortingTypes ∧ pyIntTruthyNeg mcO = false ∧ pyIntTruthyNeg msO = false := by
  unfold checkAnalysisParamtersAreValidRaiseException
  split_ifs with h1 h2 h3 <;> simp_all

lemma checkParams_error_iff (st : Option String) (mcO msO : Option Int) :
    checkAnalysisParamtersAreValidRaiseException st mcO msO = Except.error PyErr.valueError ↔
      st ∉ validSortingTypes ∨ pyIntTruthyNeg mcO = true ∨ pyIntTruthyNeg msO = true := by
  unfold checkAnalysisParamtersAreValidRaiseException
  split_ifs with h1 h2 h3 <;> simp_all

lemma checkParams_cases (st : Option String) (mcO msO : Option Int) :
    checkAnalysisParamtersAreValidRaiseException st mcO msO = Except.ok () ∨
      checkAnalysisParamtersAreValidRaiseException st mcO msO = Except.error PyErr.valueError := by
  unfold checkAnalysisParamtersAreValidRaiseException
  split_ifs <;> simp

lemma submissionStep_cases (A : Analyzer) (sid : String) (d : Bool) (acc : List ℚ × List ℚ)
    (c : String) :
    submissionStep A sid d acc c = Except.ok (bucketStep acc (A.polarityScores c)) ∨
    submissionStep A sid d acc c = Except.error PyErr.typeError ∨
    submissionStep A sid d acc c = Except.error PyErr.keyError := by
  unfold submissionStep
  cases d
  · simp
  · cases h : A.findOne sid with
    | cursorLost => simp [h]
    | noneFound => simp [h]
    | record o => cases o <;> simp [h]

lemma runComments_ne_valueError (A : Analyzer) (sid : String) (d : Bool) :
    ∀ (cs : List String) (acc : List ℚ × List ℚ),
      runComments A sid d cs acc ≠ Except.error PyErr.valueError := by
  intro cs
  induction cs with
  | nil =>
      intro acc h
      simp [runComments] at h
  | cons c rest ih =>
      intro acc h
      unfold runComments at h
      rcases submissionStep_cases A sid d acc c with hs | hs | hs <;> rw [hs] at h
      · exact ih _ h
      · simp at h
      · simp at h

lemma analyzeSubmissionFull_ok_eq (A : Analyzer) (sid : String) (st : Option String) (d : Bool)
    (mc : Int) (pn : List ℚ × List ℚ)
    (hb : submissionBuckets A sid st d mc = Except.ok pn) :
    analyzeSubmissionFull A sid st d mc =
      if (pn.1 ++ pn.2).sum = 0 then Except.ok (⟨0, 0⟩, false)
      else Except.ok (⟨pn.1.sum / (pn.1 ++ pn.2).sum, pn.2.sum / (pn.1 ++ pn.2).sum⟩, true) := by
  unfold analyzeSubmissionFull
  rw [hb]

lemma analyzeSubmissionFull_error_eq (A : Analyzer) (sid : String) (st : Option String)
    (d : Bool) (mc : Int) (e : PyErr)
    (hb : submissionBuckets A sid st d mc = Except.error e) :
    analyzeSubmissionFull A sid st d mc = Except.error e := by
  unfold analyzeSubmissionFull
  rw [hb]

lemma analyzeSubmission_of_full_ok (A : Analyzer) (sid : String) (st : Option String) (d : Bool)
    (mc : Int) (r : AggregateResult) (b : Bool)
    (h : analyzeSubmissionFull A sid st d mc = Except.ok (r, b)) :
    analyzeSubmission A sid st d mc = Except.ok r := by
  unfold analyzeSubmission
  rw [h]

lemma analyzeSubmission_of_full_error (A : Analyzer) (sid : String) (st : Option String)
    (d : Bool) (mc : Int) (e : PyErr)
    (h : analyzeSubmissionFull A sid st d mc = Except.error e) :
    analyzeSubmission A sid st d mc = Except.error e := by
  unfold analyzeSubmission
  rw [h]

lemma analyzeSubmission_ok_elim (A : Analyzer) (sid : String) (st : Option String) (d : Bool)
    (mc : Int) (r : AggregateResult)
    (h : analyzeSubmission A sid st d mc = Except.ok r) :
    ∃ b, analyzeSubmissionFull A sid st d mc = Except.ok (r, b) := by
  unfold analyzeSubmission at h
  cases hf : analyzeSubmissionFull A sid st d mc with
  | error e => rw [hf] at h; simp at h
  | ok rb =>
      rw [hf] at h
      simp only [Except.ok.injEq] at h
      subst h
      exact ⟨rb.2, rfl⟩

lemma analyzeSubmissionFull_ok_elim (A : Analyzer) (sid : String) (st : Option String)
    (d : Bool) (mc : Int) (rb : AggregateResult × Bool)
    (h : analyzeSubmissionFull A sid st d mc = Except.ok rb) :
    ∃ p n, submissionBuckets A sid st d mc = Except.ok (p, n) ∧
      ((p ++ n).sum = 0 ∧ rb = (⟨0, 0⟩, false) ∨
       (p ++ n).sum ≠ 0 ∧
         rb = (⟨p.sum / (p ++ n).sum, n.sum / (p ++ n).sum⟩, true)) := by
  cases hb : submissionBuckets A sid st d mc with
  | error e =>
      rw [analyzeSubmissionFull_error_eq A sid st d mc e hb] at h
      simp at h
  | ok pn =>
      rw [analyzeSubmissionFull_ok_eq A sid st d mc pn hb] at h
      refine ⟨pn.1, pn.2, rfl, ?_⟩
      by_cases ht : (pn.1 ++ pn.2).sum = 0
      · rw [if_pos ht] at h
        simp only [Except.ok.injEq] at h
        exact Or.inl ⟨ht, h.symm⟩
      · rw [if_neg ht] at h
        simp only [Except.ok.injEq] at h
        exact Or.inr ⟨ht, h.symm⟩

lemma analyzeSubmission_shares (A : Analyzer) (sid : String) (st : Option String) (d : Bool)
    (mc : Int) (r : AggregateResult)
    (h : analyzeSubmission A sid st d mc = Except.ok r) :
    r.positive + r.negative = 1 ∨ r = (⟨0, 0⟩ : AggregateResult) := by
  obtain ⟨b, hf⟩ := analyzeSubmission_ok_elim A sid st d mc r h
  obtain ⟨p, n, hb, hcase⟩ := analyzeSubmissionFull_ok_elim A sid st d mc (r, b) hf
  rcases hcase with ⟨hz, hr⟩ | ⟨hz, hr⟩
  · right
    exact congrArg Prod.fst hr
  · left
    have hr1 : r = ⟨p.sum / (p ++ n).sum, n.sum / (p ++ n).sum⟩ := congrArg Prod.fst hr
    rw [hr1]
    show p.sum / (p ++ n).sum + n.sum / (p ++ n).sum = 1
    rw [div_add_div_same, ← List.sum_append]
    exact div_self hz

/-- C1: every `PolarityScore` is classified as exactly one of Positive,
Negative, Ignored, deciding the branches in order with the positive branch
first: Positive when `compound ≥ 0.05` or (`neg = 0` and `pos > 0`),
appending the magnitude `compound` (as-is, not clamped) to the positive
bucket; otherwise Negative when `compound ≤ -0.05` or (`pos = 0` and
`neg > 0`), appending `abs compound` to the negative bucket; otherwise
Ignored, contributing to neither bucket. -/
theorem classifier_exactly_one (s : PolarityScore) (acc : List ℚ × List ℚ) :
    (classifyComment s = Classification.positive ∨
     classifyComment s = Classification.negative ∨
     classifyComment s = Classification.ignored) ∧
    (classifyComment s = Classification.positive ↔ positiveCondition s) ∧
    (classifyComment s = Classification.negative ↔
      ¬ positiveCondition s ∧ negativeCondition s) ∧
    (classifyComment s = Classification.ignored ↔
      ¬ positiveCondition s ∧ ¬ negativeCondition s) ∧
    (classifyComment s = Classification.positive →
      bucketStep acc s = (acc.1 ++ [s.compound], acc.2)) ∧
    (classifyComment s = Classification.negative →
      bucketStep acc s = (acc.1, acc.2 ++ [|s.compound|])) ∧
    (classifyComment s = Classification.ignored → bucketStep acc s = acc) := by
  unfold classifyComment bucketStep positiveCondition negativeCondition
  split_ifs with h1 h2 <;> simp_all

theorem classifier_exactly_one_witness :
    classifyComment scorePositive = Classification.positive ∧
    bucketStep ([], []) scorePositive = ([] ++ [scorePositive.compound], []) := by
  have h := classifier_exactly_one scorePositive ([], [])
  have hpos : classifyComment scorePositive = Classification.positive :=
    h.2.1.mpr (by with_unfolding_all decide)
  exact ⟨hpos, h.2.2.2.2.1 hpos⟩

/-- C2: whenever `analyze_submission` returns a result other than the
all-zero result, the returned `positive` and `negative` fields — each
bucket's magnitude sum divided by the total of both bucket sums — sum to
`1.0` within a `1e-9` tolerance. -/
theorem share_invariant (A : Analyzer) (sid : String) (st : Option String) (d : Bool)
    (mc : Int) (r : AggregateResult)
    (h : analyzeSubmission A sid st d mc = Except.ok r)
    (hne : r ≠ (⟨0, 0⟩ : AggregateResult)) :
    |r.positive + r.negative - 1| ≤ 1 / 1000000000 := by
  rcases analyzeSubmission_shares A sid st d mc r h with h1 | h1
  · rw [h1]
    norm_num
  · exact absurd h1 hne

theorem share_invariant_witness :
    analyzeSubmission sampleAnalyzer "a" none false 0 = Except.ok ⟨1, 0⟩ ∧
    (⟨1, 0⟩ : AggregateResult) ≠ ⟨0, 0⟩ ∧
    |(⟨1, 0⟩ : AggregateResult).positive + (⟨1, 0⟩ : AggregateResult).negative - 1| ≤
      1 / 1000000000 := by
  refine ⟨by with_unfolding_all rfl, by with_unfolding_all decide, ?_⟩
  exact share_invariant sampleAnalyzer "a" none false 0 ⟨1, 0⟩ (by with_unfolding_all rfl)
    (by with_unfolding_all decide)

/-- C3: when the positive-bucket magnitude sum plus the negative-bucket
magnitude sum is `0` — in particular with zero retrievable comments, or
with every comment classified Ignored — `analyze_submission` returns
exactly `{'positive': 0, 'negative': 0}` and the division branch is not
executed (instrumentation flag `false`). -/
theorem zero_total_no_division (A : Analyzer) (sid : String) (st : Option String) (d : Bool)
    (mc : Int) (p n : List ℚ)
    (hb : submissionBuckets A sid st d mc = Except.ok (p, n))
    (hz : p.sum + n.sum = 0) :
    analyzeSubmissionFull A sid st d mc = Except.ok (⟨0, 0⟩, false) := by
  rw [analyzeSubmissionFull_ok_eq A sid st d mc (p, n) hb,
    if_pos (by rw [List.sum_append]; exact hz)]

theorem zero_total_no_division_witness :
    analyzeSubmissionFull sampleAnalyzer "z" none false 0 = Except.ok (⟨0, 0⟩, false) :=
  zero_total_no_division sampleAnalyzer "z" none false 0 [] [] (by with_unfolding_all rfl)
    (by with_unfolding_all rfl)

lemma analyzeSubredditFull_error_eq (A : Analyzer) (name : String) (st : Option String)
    (dc ds : Bool) (mc ms : Int) (e : PyErr)
    (hv : checkAnalysisParamtersAreValidRaiseException st (some mc) (some ms) =
      Except.error e) :
    analyzeSubredditFull A name st dc ds mc ms = Except.error e := by
  unfold analyzeSubredditFull
  rw [hv]

lemma analyzeSubredditFull_valid_eq (A : Analyzer) (name : String) (st : Option String)
    (dc ds : Bool) (mc ms : Int)
    (hv : checkAnalysisParamtersAreValidRaiseException st (some mc) (some ms) = Except.ok ()) :
    analyzeSubredditFull A name st dc ds mc ms =
      (if (subredditSubmissionIds A name st).length = 0 then Except.ok (⟨0, 0⟩, 0, false)
       else
         match subredditAccum A st dc mc
             (truncateSubmissionIds (subredditSubmissionIds A name st) ms) ⟨0, 0⟩ with
         | Except.error e => Except.error e
         | Except.ok acc =>
             if acc.positive + acc.negative ≠ 0 then
               Except.ok (⟨acc.positive / (acc.positive + acc.negative),
                   acc.negative / (acc.positive + acc.negative)⟩,
                 (truncateSubmissionIds (subredditSubmissionIds A name st) ms).length, true)
             else
               Except.ok (acc,
                 (truncateSubmissionIds (subredditSubmissionIds A name st) ms).length, false)) := by
  unfold analyzeSubredditFull
  rw [hv]

lemma analyzeSubreddit_of_full_ok (A : Analyzer) (name : String) (st : Option String)
    (dc ds : Bool) (mc ms : Int) (r : AggregateResult) (cnt : Nat) (b : Bool)
    (h : analyzeSubredditFull A name st dc ds mc ms = Except.ok (r, cnt, b)) :
    analyzeSubreddit A name st dc ds mc ms = Except.ok r := by
  unfold analyzeSubreddit
  rw [h]

lemma analyzeSubreddit_of_full_error (A : Analyzer) (name : String) (st : Option String)
    (dc ds : Bool) (mc ms : Int) (e : PyErr)
    (h : analyzeSubredditFull A name st dc ds mc ms = Except.error e) :
    analyzeSubreddit A name st dc ds mc ms = Except.error e := by
  unfold analyzeSubreddit
  rw [h]

/-- C4: a subreddit whose retrieved distinct submission id set is empty
makes `analyze_subreddit` return `{'positive': 0, 'negative': 0}`
immediately: zero submissions are handed to `analyze_submission`
(instrumentation count `0`) and the renormalizing division branch is not
executed (instrumentation flag `false`). -/
theorem subreddit_empty_immediate (A : Analyzer) (name : String) (st : Option String)
    (dc ds : Bool) (mc ms : Int)
    (hv : checkAnalysisParamtersAreValidRaiseException st (some mc) (some ms) = Except.ok ())
    (he : subredditSubmissionIds A name st = []) :
    analyzeSubredditFull A name st dc ds mc ms = Except.ok (⟨0, 0⟩, 0, false) := by
  rw [analyzeSubredditFull_valid_eq A name st dc ds mc ms hv, he]
  simp

theorem subreddit_empty_immediate_witness :
    analyzeSubredditFull sampleAnalyzer "z" none false false 0 0 =
      Except.ok (⟨0, 0⟩, 0, false) :=
  subreddit_empty_immediate sampleAnalyzer "z" none false false 0 0
    (by with_unfolding_all rfl) (by with_unfolding_all rfl)

lemma truncate_length_le (ids : List String) (ms : Int) (h : 0 < ms) :
    ((truncateSubmissionIds ids ms).length : Int) ≤ ms := by
  unfold truncateSubmissionIds
  split_ifs with hc
  · rw [List.length_take]
    omega
  · omega

lemma analyzeSubredditFull_count (A : Analyzer) (name : String) (st : Option String)
    (dc ds : Bool) (mc ms : Int) (r : AggregateResult) (cnt : Nat) (b : Bool)
    (h : analyzeSubredditFull A name st dc ds mc ms = Except.ok (r, cnt, b)) :
    cnt = 0 ∨
      cnt = (truncateSubmissionIds (subredditSubmissionIds A name st) ms).length := by
  rcases checkParams_cases st (some mc) (some ms) with hv | hv
  · rw [analyzeSubredditFull_valid_eq A name st dc ds mc ms hv] at h
    split_ifs at h with h1
    · simp only [Except.ok.injEq, Prod.mk.injEq] at h
      exact Or.inl h.2.1.symm
    · cases ha : subredditAccum A st dc mc
          (truncateSubmissionIds (subredditSubmissionIds A name st) ms) ⟨0, 0⟩ with
      | error e => rw [ha] at h; simp at h
      | ok acc =>
          rw [ha] at h
          dsimp only at h
          split_ifs at h with h2 <;>
            simp only [Except.ok.injEq, Prod.mk.injEq] at h <;>
            exact Or.inr h.2.1.symm
  · rw [analyzeSubredditFull_error_eq A name st dc ds mc ms PyErr.valueError hv] at h
    simp at h

/-- C5: with `max_submissions = k > 0` at most `k` submissions are
analyzed; when the retrieved id list exceeds `k` it is truncated to its
first `k` elements in store order, and with `k = 0` no truncation
occurs. -/
theorem submission_cap_respected (A : Analyzer) (name : String) (st : Option String)
    (dc ds : Bool) (mc : Int) (ms : Int) (ids : List String) (r : AggregateResult)
    (cnt : Nat) (b : Bool) :
    (0 < ms → analyzeSubredditFull A name st dc ds mc ms = Except.ok (r, cnt, b) →
      (cnt : Int) ≤ ms) ∧
    (0 < ms → ms < (ids.length : Int) →
      truncateSubmissionIds ids ms = ids.take ms.toNat) ∧
    truncateSubmissionIds ids 0 = ids := by
  refine ⟨?_, ?_, ?_⟩
  · intro hms h
    rcases analyzeSubredditFull_count A name st dc ds mc ms r cnt b h with h0 | hlen
    · omega
    · rw [hlen]
      exact truncate_length_le _ ms hms
  · intro hms hgt
    unfold truncateSubmissionIds
    rw [if_pos ⟨hgt, by omega⟩]
  · unfold truncateSubmissionIds
    simp

theorem submission_cap_respected_witness :
    truncateSubmissionIds ["a", "b", "c"] 1 = ["a"] ∧ ((1 : Nat) : Int) ≤ 1 :=
  ⟨(submission_cap_respected sampleAnalyzer "r" none false false 0 1 ["a", "b", "c"]
        ⟨1, 0⟩ 1 true).2.1 (by decide) (by decide),
   (submission_cap_respected sampleAnalyzer "r" none false false 0 1 ["a", "b", "c"]
        ⟨1, 0⟩ 1 true).1 (by decide) (by with_unfolding_all rfl)⟩

lemma subredditAccum_eq_results (A : Analyzer) (st : Option String) (dc : Bool) (mc : Int) :
    ∀ (ids : List String) (acc : AggregateResult),
      subredditAccum A st dc mc ids acc =
        match submissionResults A st dc mc ids with
        | Except.error e => Except.error e
        | Except.ok rs =>
            Except.ok ⟨acc.positive + (rs.map AggregateResult.positive).sum,
                       acc.negative + (rs.map AggregateResult.negative).sum⟩ := by
  intro ids
  induction ids with
  | nil =>
      intro acc
      simp [subredditAccum, submissionResults]
  | cons sid rest ih =>
      intro acc
      unfold subredditAccum submissionResults
      cases hs : analyzeSubmission A sid st dc mc with
      | error e => rfl
      | ok r =>
          dsimp only
          rw [ih ⟨acc.positive + r.positive, acc.negative + r.negative⟩]
          cases hr : submissionResults A st dc mc rest with
          | error e => rfl
          | ok rs =>
              simp only [List.map_cons, List.sum_cons, add_assoc]

lemma submissionResults_shares (A : Analyzer) (st : Option String) (dc : Bool) (mc : Int) :
    ∀ (ids : List String) (rs : List AggregateResult),
      submissionResults A st dc mc ids = Except.ok rs →
      ∀ r ∈ rs, r.positive + r.negative = 1 ∨ r = (⟨0, 0⟩ : AggregateResult) := by
  intro ids
  induction ids with
  | nil =>
      intro rs h r hr
      simp only [submissionResults, Except.ok.injEq] at h
      subst h
      simp at hr
  | cons sid rest ih =>
      intro rs h r hr
      unfold submissionResults at h
      cases hs : analyzeSubmission A sid st dc mc with
      | error e => rw [hs] at h; simp at h
      | ok r0 =>
          rw [hs] at h
          cases ht : submissionResults A st dc mc rest with
          | error e => rw [ht] at h; simp at h
          | ok rs0 =>
              rw [ht] at h
              simp only [Except.ok.injEq] at h
              subst h
              rcases List.mem_cons.mp hr with h1 | h1
              · subst h1
                exact analyzeSubmission_shares A sid st dc mc r hs
              · exact ih rs0 ht r h1

lemma shares_sum_nonneg :
    ∀ (rs : List AggregateResult),
      (∀ r ∈ rs, r.positive + r.negative = 1 ∨ r = (⟨0, 0⟩ : AggregateResult)) →
      0 ≤ (rs.map AggregateResult.positive).sum + (rs.map AggregateResult.negative).sum := by
  intro rs
  induction rs with
  | nil =>
      intro _
      simp
  | cons r rest ih =>
      intro h
      have hr := h r (List.mem_cons_self r rest)
      have ht := ih (fun x hx => h x (List.mem_cons_of_mem r hx))
      simp only [List.map_cons, List.sum_cons]
      rcases hr with h1 | h1
      · linarith
      · have hp : r.positive = 0 := by rw [h1]
        have hn : r.negative = 0 := by rw [h1]
        rw [hp, hn]
        linarith

lemma shares_sum_zero :
    ∀ (rs : List AggregateResult),
      (∀ r ∈ rs, r.positive + r.negative = 1 ∨ r = (⟨0, 0⟩ : AggregateResult)) →
      (rs.map AggregateResult.positive).sum + (rs.map AggregateResult.negative).sum = 0 →
      (rs.map AggregateResult.positive).sum = 0 ∧
        (rs.map AggregateResult.negative).sum = 0 := by
  intro rs
  induction rs with
  | nil =>
      intro _ _
      simp
  | cons r rest ih =>
      intro h hz
      have hr := h r (List.mem_cons_self r rest)
      have hnn := shares_sum_nonneg rest (fun x hx => h x (List.mem_cons_of_mem r hx))
      simp only [List.map_cons, List.sum_cons] at hz ⊢
      rcases hr with h1 | h1
      · exfalso
        linarith
      · have hp : r.positive = 0 := by rw [h1]
        have hn : r.negative = 0 := by rw [h1]
        rw [hp, hn] at hz ⊢
        have hrest := ih (fun x hx => h x (List.mem_cons_of_mem r hx)) (by linarith)
        constructor <;> linarith [hrest.1, hrest.2]

lemma analyzeSubredditFull_of_results (A : Analyzer) (name : String) (st : Option String)
    (dc ds : Bool) (mc ms : Int) (rs : List AggregateResult)
    (hv : checkAnalysisParamtersAreValidRaiseException st (some mc) (some ms) = Except.ok ())
    (hne : subredditSubmissionIds A name st ≠ [])
    (hok : submissionResults A st dc mc
        (truncateSubmissionIds (subredditSubmissionIds A name st) ms) = Except.ok rs) :
    analyzeSubredditFull A name st dc ds mc ms =
      (if (rs.map AggregateResult.positive).sum + (rs.map AggregateResult.negative).sum ≠ 0 then
        Except.ok
          (⟨(rs.map AggregateResult.positive).sum /
              ((rs.map AggregateResult.positive).sum + (rs.map AggregateResult.negative).sum),
            (rs.map AggregateResult.negative).sum /
              ((rs.map AggregateResult.positive).sum +
                (rs.map AggregateResult.negative).sum)⟩,
           (truncateSubmissionIds (subredditSubmissionIds A name st) ms).length, true)
      else
        Except.ok
          (⟨(rs.map AggregateResult.positive).sum, (rs.map AggregateResult.negative).sum⟩,
           (truncateSubmissionIds (subredditSubmissionIds A name st) ms).length, false)) := by
  rw [analyzeSubredditFull_valid_eq A name st dc ds mc ms hv]
  rw [if_neg (by simpa using hne)]
  rw [subredditAccum_eq_results A st dc mc _ ⟨0, 0⟩, hok]
  simp only [zero_add]

/-- C6: for a non-empty retrieved submission id list, `analyze_subreddit`
accumulates the per-submission `positive`/`negative` shares by simple
unweighted addition (each submission counting equally), then divides both
accumulated fields by their total when that total is nonzero, and returns
`{'positive': 0, 'negative': 0}` when the total is zero. -/
theorem subreddit_unweighted_fold (A : Analyzer) (name : String) (st : Option String)
    (dc ds : Bool) (mc ms : Int) (rs : List AggregateResult)
    (hv : checkAnalysisParamtersAreValidRaiseException st (some mc) (some ms) = Except.ok ())
    (hne : subredditSubmissionIds A name st ≠ [])
    (hok : submissionResults A st dc mc
        (truncateSubmissionIds (subredditSubmissionIds A name st) ms) = Except.ok rs) :
    analyzeSubreddit A name st dc ds mc ms =
      Except.ok
        (if (rs.map AggregateResult.positive).sum + (rs.map AggregateResult.negative).sum = 0
         then ⟨0, 0⟩
         else
           ⟨(rs.map AggregateResult.positive).sum /
               ((rs.map AggregateResult.positive).sum + (rs.map AggregateResult.negative).sum),
             (rs.map AggregateResult.negative).sum /
               ((rs.map AggregateResult.positive).sum +
                 (rs.map AggregateResult.negative).sum)⟩) := by
  have hfull := analyzeSubredditFull_of_results A name st dc ds mc ms rs hv hne hok
  by_cases hz :
      (rs.map AggregateResult.positive).sum + (rs.map AggregateResult.negative).sum = 0
  · rw [if_neg (by simpa using hz)] at hfull
    obtain ⟨hP, hN⟩ :=
      shares_sum_zero rs (submissionResults_shares A st dc mc _ rs hok) hz
    rw [if_pos hz]
    rw [hP, hN] at hfull
    exact analyzeSubreddit_of_full_ok A name st dc ds mc ms ⟨0, 0⟩ _ false hfull
  · rw [if_pos hz] at hfull
    rw [if_neg hz]
    exact analyzeSubreddit_of_full_ok A name st dc ds mc ms _ _ true hfull

theorem subreddit_unweighted_fold_witness :
    analyzeSubreddit sampleAnalyzer "r" none false false 0 0 = Except.ok ⟨1 / 2, 1 / 2⟩ := by
  have h := subreddit_unweighted_fold sampleAnalyzer "r" none false false 0 0
    [⟨1, 0⟩, ⟨0, 1⟩] (by with_unfolding_all rfl) (by with_unfolding_all decide)
    (by with_unfolding_all rfl)
  rw [h]
  norm_num

lemma analyzeSubmission_valueError_iff (A : Analyzer) (sid : String) (st : Option String)
    (d : Bool) (mc : Int) :
    analyzeSubmission A sid st d mc = Except.error PyErr.valueError ↔
      st ∉ validSortingTypes ∨ mc < 0 := by
  rcases checkParams_cases st (some mc) none with hv | hv
  · have hbx : submissionBuckets A sid st d mc =
        runComments A sid d (A.getPreprocessedComments sid mc st) ([], []) := by
      unfold submissionBuckets
      rw [hv]
    refine iff_of_false ?_ ?_
    · intro h
      cases hr : runComments A sid d (A.getPreprocessedComments sid mc st) ([], []) with
      | error e =>
          have he : analyzeSubmission A sid st d mc = Except.error e :=
            analyzeSubmission_of_full_error A sid st d mc e
              (analyzeSubmissionFull_error_eq A sid st d mc e (by rw [hbx, hr]))
          rw [he] at h
          simp only [Except.error.injEq] at h
          subst h
          exact runComments_ne_valueError A sid d _ _ hr
      | ok pn =>
          have hfull := analyzeSubmissionFull_ok_eq A sid st d mc pn (by rw [hbx, hr])
          by_cases ht : (pn.1 ++ pn.2).sum = 0
          · rw [if_pos ht] at hfull
            rw [analyzeSubmission_of_full_ok A sid st d mc _ _ hfull] at h
            simp at h
          · rw [if_neg ht] at hfull
            rw [analyzeSubmission_of_full_ok A sid st d mc _ _ hfull] at h
            simp at h
    · intro h
      rw [checkParams_ok_iff] at hv
      rcases h with h | h
      · exact h hv.1
      · have h2 : pyIntTruthyNeg (some mc) = true := (pyIntTruthyNeg_some_iff mc).mpr h
        rw [hv.2.1] at h2
        simp at h2
  · have herr : analyzeSubmission A sid st d mc = Except.error PyErr.valueError :=
      analyzeSubmission_of_full_error A sid st d mc PyErr.valueError
        (analyzeSubmissionFull_error_eq A sid st d mc PyErr.valueError
          (by unfold submissionBuckets; rw [hv]))
    have hr : st ∉ validSortingTypes ∨ mc < 0 := by
      rcases (checkParams_error_iff st (some mc) none).mp hv with h | h | h
      · exact Or.inl h
      · exact Or.inr ((pyIntTruthyNeg_some_iff mc).mp h)
      · simp [pyIntTruthyNeg] at h
    exact iff_of_true herr hr

lemma checkParams_drop_subs (st : Option String) (mc ms : Int)
    (hv : checkAnalysisParamtersAreValidRaiseException st (some mc) (some ms) = Except.ok ()) :
    checkAnalysisParamtersAreValidRaiseException st (some mc) none = Except.ok () := by
  rw [checkParams_ok_iff] at hv ⊢
  exact ⟨hv.1, hv.2.1, rfl⟩

lemma subredditAccum_ne_valueError (A : Analyzer) (st : Option String) (dc : Bool) (mc : Int)
    (hok : checkAnalysisParamtersAreValidRaiseException st (some mc) none = Except.ok ()) :
    ∀ (ids : List String) (acc : AggregateResult),
      subredditAccum A st dc mc ids acc ≠ Except.error PyErr.valueError := by
  intro ids
  induction ids with
  | nil =>
      intro acc h
      simp [subredditAccum] at h
  | cons sid rest ih =>
      intro acc h
      unfold subredditAccum at h
      cases hs : analyzeSubmission A sid st dc mc with
      | error e =>
          rw [hs] at h
          simp only [Except.error.injEq] at h
          subst h
          rw [checkParams_ok_iff] at hok
          rcases (analyzeSubmission_valueError_iff A sid st dc mc).mp hs with h1 | h1
          · exact h1 hok.1
          · have h2 : pyIntTruthyNeg (some mc) = true := (pyIntTruthyNeg_some_iff mc).mpr h1
            rw [hok.2.1] at h2
            simp at h2
      | ok r =>
          rw [hs] at h
          exact ih _ h

lemma analyzeSubreddit_valueError_iff (A : Analyzer) (name : String) (st : Option String)
    (dc ds : Bool) (mc ms : Int) :
    analyzeSubreddit A name st dc ds mc ms = Except.error PyErr.valueError ↔
      st ∉ validSortingTypes ∨ mc < 0 ∨ ms < 0 := by
  rcases checkParams_cases st (some mc) (some ms) with hv | hv
  · refine iff_of_false ?_ ?_
    · intro h
      unfold analyzeSubreddit at h
      rw [analyzeSubredditFull_valid_eq A name st dc ds mc ms hv] at h
      by_cases h1 : (subredditSubmissionIds A name st).length = 0
      · rw [if_pos h1] at h
        simp at h
      · rw [if_neg h1] at h
        cases ha : subredditAccum A st dc mc
            (truncateSubmissionIds (subredditSubmissionIds A name st) ms) ⟨0, 0⟩ with
        | error e =>
            rw [ha] at h
            dsimp only at h
            simp only [Except.error.injEq] at h
            subst h
            exact subredditAccum_ne_valueError A st dc mc
              (checkParams_drop_subs st mc ms hv) _ _ ha
        | ok acc =>
            rw [ha] at h
            dsimp only at h
            split_ifs at h
    · intro h
      rw [checkParams_ok_iff] at hv
      rcases h with h | h | h
      · exact h hv.1
      · have h2 : pyIntTruthyNeg (some mc) = true := (pyIntTruthyNeg_some_iff mc).mpr h
        rw [hv.2.1] at h2
        simp at h2
      · have h2 : pyIntTruthyNeg (some ms) = true := (pyIntTruthyNeg_some_iff ms).mpr h
        rw [hv.2.2] at h2
        simp at h2
  · have herr : analyzeSubreddit A name st dc ds mc ms = Except.error PyErr.valueError :=
      analyzeSubreddit_of_full_error A name st dc ds mc ms PyErr.valueError
        (analyzeSubredditFull_error_eq A name st dc ds mc ms PyErr.valueError hv)
    have hr : st ∉ validSortingTypes ∨ mc < 0 ∨ ms < 0 := by
      rcases (checkParams_error_iff st (some mc) (some ms)).mp hv with h | h | h
      · exact Or.inl h
      · exact Or.inr (Or.inl ((pyIntTruthyNeg_some_iff mc).mp h))
      · exact Or.inr (Or.inr ((pyIntTruthyNeg_some_iff ms).mp h))
    exact iff_of_true herr hr

/-- C7: `analyze_submission` and `analyze_subreddit` raise `ValueError`
exactly when the sorting type is outside `{'hot','top','new',None}` or
the max-comments (resp. max-submissions) argument is negative, and such a
failure is raised synchronously before any retrieval: for invalid
parameters the outcome is the same `ValueError` under every collaborator
assembly, so no partial work is performed against the store. -/
theorem validation_fail_fast (sid name : String) (st : Option String) (d dc ds : Bool)
    (mc ms : Int) :
    (∀ A : Analyzer, analyzeSubmission A sid st d mc = Except.error PyErr.valueError ↔
      st ∉ validSortingTypes ∨ mc < 0) ∧
    (∀ A : Analyzer, analyzeSubreddit A name st dc ds mc ms = Except.error PyErr.valueError ↔
      st ∉ validSortingTypes ∨ mc < 0 ∨ ms < 0) ∧
    (st ∉ validSortingTypes ∨ mc < 0 →
      ∀ A B : Analyzer, analyzeSubmission A sid st d mc = analyzeSubmission B sid st d mc) ∧
    (st ∉ validSortingTypes ∨ mc < 0 ∨ ms < 0 →
      ∀ A B : Analyzer, analyzeSubreddit A name st dc ds mc ms =
        analyzeSubreddit B name st dc ds mc ms) := by
  refine ⟨fun A => analyzeSubmission_valueError_iff A sid st d mc,
          fun A => analyzeSubreddit_valueError_iff A name st dc ds mc ms, ?_, ?_⟩
  · intro h A B
    rw [(analyzeSubmission_valueError_iff A sid st d mc).mpr h,
        (analyzeSubmission_valueError_iff B sid st d mc).mpr h]
  · intro h A B
    rw [(analyzeSubreddit_valueError_iff A name st dc ds mc ms).mpr h,
        (analyzeSubreddit_valueError_iff B name st dc ds mc ms).mpr h]

theorem validation_fail_fast_witness :
    ((some "bogus" : Option String) ∉ validSortingTypes ∨ (0 : Int) < 0) ∧
    analyzeSubmission sampleAnalyzer "a" (some "bogus") false 0 =
      analyzeSubmission missingFieldAnalyzer "a" (some "bogus") false 0 ∧
    analyzeSubmission sampleAnalyzer "a" (some "bogus") false 0 =
      Except.error PyErr.valueError := by
  have hinv : (some "bogus" : Option String) ∉ validSortingTypes ∨ (0 : Int) < 0 := by
    with_unfolding_all decide
  refine ⟨hinv, ?_, ?_⟩
  · exact (validation_fail_fast "a" "r" (some "bogus") false false false 0 0).2.2.1 hinv
      sampleAnalyzer missingFieldAnalyzer
  · exact ((validation_fail_fast "a" "r" (some "bogus") false false false 0 0).1
      sampleAnalyzer).mpr hinv

/-- C8 (code bug): on a non-empty subreddit list the ranking functions
crash instead of returning the argmax result: the running-maximum
dictionary starts as the empty dict, so the first comparison
`analysis_result['positive'] > most_positive_subreddit['positive']`
raises `KeyError` (symmetrically for the negative variant), where the
claim expects the highest-positive (resp. highest-negative) subreddit's
result to be returned with its name attached. -/
theorem ranking_crashes_on_nonempty_list :
    getMostPositiveSubredditAnalysisResults sampleAnalyzer ["r"] none 0 0 =
      Except.error PyErr.keyError ∧
    getMostNegativeSubredditAnalysisResults sampleAnalyzer ["r"] none 0 0 =
      Except.error PyErr.keyError := by
  constructor <;> with_unfolding_all rfl

/-- C9 (code bug): attaching the display sink changes the outcome.  With
`display_all_comment_results=True` and a store whose `find_one` document
lacks the `subreddit_name` field (the situation the code's own comment
anticipates but fails to catch, since only `CursorNotFound` is handled),
the per-comment display lookup raises an uncaught `KeyError`, while the
identical call with the sink detached returns normally; `analyze_subreddit`
inherits the same divergence through its display flag. -/
theorem display_sink_changes_outcome :
    analyzeSubmission missingFieldAnalyzer "a" none true 0 = Except.error PyErr.keyError ∧
    analyzeSubmission missingFieldAnalyzer "a" none false 0 = Except.ok ⟨1, 0⟩ ∧
    analyzeSubreddit missingFieldAnalyzer "r" none true false 0 0 =
      Except.error PyErr.keyError ∧
    analyzeSubreddit missingFieldAnalyzer "r" none false false 0 0 = Except.ok ⟨1, 0⟩ := by
  refine ⟨?_, ?_, ?_, ?_⟩ <;> with_unfolding_all rfl

/-- C10: the accepted sorting types are exactly the strings 'hot', 'top',
'new' together with the language's null value None; in particular the
literal string 'none' is rejected with a `ValueError` by both analyzers
rather than treated as the unfiltered case. -/
theorem sorting_type_none_string_rejected (A : Analyzer) (sid name : String)
    (d dc ds : Bool) (st : Option String) :
    (st ∈ validSortingTypes ↔
      st = some "hot" ∨ st = some "top" ∨ st = some "new" ∨ st = none) ∧
    analyzeSubmission A sid (some "none") d 0 = Except.error PyErr.valueError ∧
    analyzeSubreddit A name (some "none") dc ds 0 0 = Except.error PyErr.valueError := by
  refine ⟨?_, ?_, ?_⟩
  · simp only [validSortingTypes, List.mem_cons, List.mem_singleton, List.not_mem_nil, or_false]
    tauto
  · exact (analyzeSubmission_valueError_iff A sid (some "none") d 0).mpr
      (Or.inl (by simp [validSortingTypes]))
  · exact (analyzeSubreddit_valueError_iff A name (some "none") dc ds 0 0).mpr
      (Or.inl (by simp [validSortingTypes]))

theorem sorting_type_none_string_rejected_witness :
    analyzeSubmission sampleAnalyzer "a" (some "none") false 0 =
      Except.error PyErr.valueError :=
  (sorting_type_none_string_rejected sampleAnalyzer "a" "r" false false false none).2.1

end RedditAnalysis
